import Mathlib

/-!
# Credit simulator core formula: a shallow embedding

This file embeds the scoring heuristic of the credit simulator
(`calculateWeights`, `calculateWorstCaseImpact`, `runSimulation` in
`src/next.config.ts`, lines 407-553) into Lean and settles the testable
properties of its specification.

JavaScript numbers are modelled as exact rationals (`ℚ`); the arithmetic of
the formula is plain `+ - * /`, `Math.min/max/round` and `toFixed`, so the
rational model is faithful up to floating-point rounding noise, which the
properties under consideration do not depend on.  Form fields that may hold
the empty string (TypeScript type `number | ''`) are modelled as `Option ℚ`
with `none` for `''`; the `Number(x) || d` coercion idiom of the source is
`numOr`, the bare `Number(x)` coercion is `numberOf`.

`calculateWeights` mutates one record through five ordered threshold-gated
adjustments and then normalizes it in place; the embedding renders this as a
composition of pure per-step functions threaded in the source's order, which
is the same sequential data flow.
-/

set_option maxHeartbeats 4000000

namespace CreditSim

/-- JavaScript `Math.round`: round half toward positive infinity.
(`Rat.floor` is used rather than `⌊·⌋` so the definition evaluates; the two
agree by `Rat.floor_def'`.) -/
def jsRound (q : ℚ) : ℤ := (q + 1/2).floor

/-- JavaScript `parseFloat(x.toFixed(4))`: round to 4 decimal digits.
(`toFixed` rounds ties by the binary double value; no value rounded in this
development sits at a tie, so half-up is exact here.) -/
def roundTo4 (q : ℚ) : ℚ := (jsRound (q * 10000) : ℚ) / 10000

/-- JavaScript `x.toFixed(1)`, read back as a number: round to 1 decimal digit. -/
def roundTo1 (q : ℚ) : ℚ := (jsRound (q * 10) : ℚ) / 10

/-- JavaScript `Number(x) || d` for a form field `x : number | ''`:
the empty string and `0` both coerce to the default `d`. -/
def numOr (x : Option ℚ) (d : ℚ) : ℚ :=
  match x with
  | none => d
  | some v => if v = 0 then d else v

/-- JavaScript `Number(x)` for a form field `x : number | ''`:
the empty string coerces to `0`. -/
def numberOf (x : Option ℚ) : ℚ := x.getD 0

/-- The five FICO weight components (source: the `baseWeights` record). -/
structure Weights where
  paymentHistory : ℚ
  utilization : ℚ
  accountAge : ℚ
  creditMix : ℚ
  newCredit : ℚ
deriving DecidableEq

/-- Sum of the five weight components. -/
def Weights.total (w : Weights) : ℚ :=
  w.paymentHistory + w.utilization + w.accountAge + w.creditMix + w.newCredit

/-- The fixed base weights (src/next.config.ts:415-421). -/
def baseWeights : Weights :=
  { paymentHistory := 0.35, utilization := 0.30, accountAge := 0.15
    creditMix := 0.10, newCredit := 0.10 }

/-- Step 1 (src/next.config.ts:423-431): FICO-band overrides. -/
def ficoAdjust (ficoScore : ℚ) (w : Weights) : Weights :=
  if ficoScore ≥ 740 then
    { w with paymentHistory := 0.25, utilization := 0.40, accountAge := 0.20 }
  else if ficoScore ≤ 580 then
    { w with paymentHistory := 0.45, utilization := 0.25, newCredit := 0.15 }
  else w

/-- Step 2 (src/next.config.ts:432-436): high debt-to-income adjustment. -/
def dtiAdjust (dti : ℚ) (w : Weights) : Weights :=
  if dti > 0.45 then
    { w with utilization := min 0.45 (w.utilization + 0.05)
             paymentHistory := max 0.25 (w.paymentHistory - 0.05) }
  else w

/-- Step 3 (src/next.config.ts:437-442): low overall-utilization adjustment,
skipped entirely when `totalCreditLimit ≤ 0`. -/
def limitAdjust (totalDebt totalCreditLimit : ℚ) (w : Weights) : Weights :=
  if totalCreditLimit > 0 then
    if totalDebt / totalCreditLimit * 100 < 30 then
      { w with utilization := max 0.20 (w.utilization - 0.05) }
    else w
  else w

/-- Step 4 (src/next.config.ts:443-446): positive-accounts adjustment. -/
def positiveAdjust (positiveAccounts : ℚ) (w : Weights) : Weights :=
  if positiveAccounts > 0 then
    { w with paymentHistory := max 0.30 (w.paymentHistory - 0.05)
             creditMix := min 0.20 (w.creditMix + 0.05) }
  else w

/-- Step 5 (src/next.config.ts:447-452): account-age adjustment. -/
def ageAdjust (oldestAccountAge : ℚ) (w : Weights) : Weights :=
  if oldestAccountAge < 4 then
    { w with accountAge := max 0.05 (w.accountAge - 0.05)
             newCredit := min 0.20 (w.newCredit + 0.05) }
  else if oldestAccountAge > 10 then
    { w with accountAge := min 0.25 (w.accountAge + 0.05) }
  else w

/-- Final normalization (src/next.config.ts:453-456): every component is
divided by the pre-normalization sum and rounded to 4 decimal digits. -/
def normalizeWeights (w : Weights) : Weights :=
  let s := w.paymentHistory + w.utilization + w.accountAge + w.creditMix + w.newCredit
  { paymentHistory := roundTo4 (w.paymentHistory / s)
    utilization := roundTo4 (w.utilization / s)
    accountAge := roundTo4 (w.accountAge / s)
    creditMix := roundTo4 (w.creditMix / s)
    newCredit := roundTo4 (w.newCredit / s) }

/-- Embedding of `calculateWeights` (src/next.config.ts:407-458):
base weights, the five ordered adjustments, then normalization.  The
debt-to-income ratio guards against zero income by substituting `1`. -/
def calculateWeights (ficoScore totalDebt monthlyIncome positiveAccounts
    oldestAccountAge totalCreditLimit : ℚ) : Weights :=
  let dti := if monthlyIncome > 0 then totalDebt / (monthlyIncome * 12) else 1
  normalizeWeights
    (ageAdjust oldestAccountAge
      (positiveAdjust positiveAccounts
        (limitAdjust totalDebt totalCreditLimit
          (dtiAdjust dti
            (ficoAdjust ficoScore baseWeights)))))

/-! ## Finite enumeration of reachable weight vectors

Every adjustment step writes constants or clamped constant offsets, so the
set of vectors reachable at each stage is finite and concrete.  The tables
below list them; the stage lemmas push membership through the pipeline. -/

/-- Vectors reachable after step 1. -/
def weightTable1 : List Weights :=
  [⟨0.25, 0.40, 0.20, 0.10, 0.10⟩,
   ⟨0.35, 0.30, 0.15, 0.10, 0.10⟩,
   ⟨0.45, 0.25, 0.15, 0.10, 0.15⟩]

/-- Vectors reachable after step 2. -/
def weightTable2 : List Weights :=
  [⟨0.25, 0.40, 0.20, 0.10, 0.10⟩,
   ⟨0.25, 0.45, 0.20, 0.10, 0.10⟩,
   ⟨0.30, 0.35, 0.15, 0.10, 0.10⟩,
   ⟨0.35, 0.30, 0.15, 0.10, 0.10⟩,
   ⟨0.40, 0.30, 0.15, 0.10, 0.15⟩,
   ⟨0.45, 0.25, 0.15, 0.10, 0.15⟩]

/-- Vectors reachable after step 3. -/
def weightTable3 : List Weights :=
  [⟨0.25, 0.35, 0.20, 0.10, 0.10⟩,
   ⟨0.25, 0.40, 0.20, 0.10, 0.10⟩,
   ⟨0.25, 0.45, 0.20, 0.10, 0.10⟩,
   ⟨0.30, 0.30, 0.15, 0.10, 0.10⟩,
   ⟨0.30, 0.35, 0.15, 0.10, 0.10⟩,
   ⟨0.35, 0.25, 0.15, 0.10, 0.10⟩,
   ⟨0.35, 0.30, 0.15, 0.10, 0.10⟩,
   ⟨0.40, 0.25, 0.15, 0.10, 0.15⟩,
   ⟨0.40, 0.30, 0.15, 0.10, 0.15⟩,
   ⟨0.45, 0.20, 0.15, 0.10, 0.15⟩,
   ⟨0.45, 0.25, 0.15, 0.10, 0.15⟩]

/-- Vectors reachable after step 4. -/
def weightTable4 : List Weights :=
  [⟨0.25, 0.35, 0.20, 0.10, 0.10⟩,
   ⟨0.25, 0.40, 0.20, 0.10, 0.10⟩,
   ⟨0.25, 0.45, 0.20, 0.10, 0.10⟩,
   ⟨0.30, 0.25, 0.15, 0.15, 0.10⟩,
   ⟨0.30, 0.30, 0.15, 0.10, 0.10⟩,
   ⟨0.30, 0.30, 0.15, 0.15, 0.10⟩,
   ⟨0.30, 0.35, 0.15, 0.10, 0.10⟩,
   ⟨0.30, 0.35, 0.15, 0.15, 0.10⟩,
   ⟨0.30, 0.35, 0.20, 0.15, 0.10⟩,
   ⟨0.30, 0.40, 0.20, 0.15, 0.10⟩,
   ⟨0.30, 0.45, 0.20, 0.15, 0.10⟩,
   ⟨0.35, 0.25, 0.15, 0.10, 0.10⟩,
   ⟨0.35, 0.25, 0.15, 0.15, 0.15⟩,
   ⟨0.35, 0.30, 0.15, 0.10, 0.10⟩,
   ⟨0.35, 0.30, 0.15, 0.15, 0.15⟩,
   ⟨0.40, 0.20, 0.15, 0.15, 0.15⟩,
   ⟨0.40, 0.25, 0.15, 0.10, 0.15⟩,
   ⟨0.40, 0.25, 0.15, 0.15, 0.15⟩,
   ⟨0.40, 0.30, 0.15, 0.10, 0.15⟩,
   ⟨0.45, 0.20, 0.15, 0.10, 0.15⟩,
   ⟨0.45, 0.25, 0.15, 0.10, 0.15⟩]

/-- Vectors reachable after step 5 (pre-normalization). -/
def weightTable5 : List Weights :=
  [⟨0.25, 0.35, 0.15, 0.10, 0.15⟩,
   ⟨0.25, 0.35, 0.20, 0.10, 0.10⟩,
   ⟨0.25, 0.35, 0.25, 0.10, 0.10⟩,
   ⟨0.25, 0.40, 0.15, 0.10, 0.15⟩,
   ⟨0.25, 0.40, 0.20, 0.10, 0.10⟩,
   ⟨0.25, 0.40, 0.25, 0.10, 0.10⟩,
   ⟨0.25, 0.45, 0.15, 0.10, 0.15⟩,
   ⟨0.25, 0.45, 0.20, 0.10, 0.10⟩,
   ⟨0.25, 0.45, 0.25, 0.10, 0.10⟩,
   ⟨0.30, 0.25, 0.10, 0.15, 0.15⟩,
   ⟨0.30, 0.25, 0.15, 0.15, 0.10⟩,
   ⟨0.30, 0.25, 0.20, 0.15, 0.10⟩,
   ⟨0.30, 0.30, 0.10, 0.10, 0.15⟩,
   ⟨0.30, 0.30, 0.10, 0.15, 0.15⟩,
   ⟨0.30, 0.30, 0.15, 0.10, 0.10⟩,
   ⟨0.30, 0.30, 0.15, 0.15, 0.10⟩,
   ⟨0.30, 0.30, 0.20, 0.10, 0.10⟩,
   ⟨0.30, 0.30, 0.20, 0.15, 0.10⟩,
   ⟨0.30, 0.35, 0.10, 0.10, 0.15⟩,
   ⟨0.30, 0.35, 0.10, 0.15, 0.15⟩,
   ⟨0.30, 0.35, 0.15, 0.10, 0.10⟩,
   ⟨0.30, 0.35, 0.15, 0.15, 0.10⟩,
   ⟨0.30, 0.35, 0.15, 0.15, 0.15⟩,
   ⟨0.30, 0.35, 0.20, 0.10, 0.10⟩,
   ⟨0.30, 0.35, 0.20, 0.15, 0.10⟩,
   ⟨0.30, 0.35, 0.25, 0.15, 0.10⟩,
   ⟨0.30, 0.40, 0.15, 0.15, 0.15⟩,
   ⟨0.30, 0.40, 0.20, 0.15, 0.10⟩,
   ⟨0.30, 0.40, 0.25, 0.15, 0.10⟩,
   ⟨0.30, 0.45, 0.15, 0.15, 0.15⟩,
   ⟨0.30, 0.45, 0.20, 0.15, 0.10⟩,
   ⟨0.30, 0.45, 0.25, 0.15, 0.10⟩,
   ⟨0.35, 0.25, 0.10, 0.10, 0.15⟩,
   ⟨0.35, 0.25, 0.10, 0.15, 0.20⟩,
   ⟨0.35, 0.25, 0.15, 0.10, 0.10⟩,
   ⟨0.35, 0.25, 0.15, 0.15, 0.15⟩,
   ⟨0.35, 0.25, 0.20, 0.10, 0.10⟩,
   ⟨0.35, 0.25, 0.20, 0.15, 0.15⟩,
   ⟨0.35, 0.30, 0.10, 0.10, 0.15⟩,
   ⟨0.35, 0.30, 0.10, 0.15, 0.20⟩,
   ⟨0.35, 0.30, 0.15, 0.10, 0.10⟩,
   ⟨0.35, 0.30, 0.15, 0.15, 0.15⟩,
   ⟨0.35, 0.30, 0.20, 0.10, 0.10⟩,
   ⟨0.35, 0.30, 0.20, 0.15, 0.15⟩,
   ⟨0.40, 0.20, 0.10, 0.15, 0.20⟩,
   ⟨0.40, 0.20, 0.15, 0.15, 0.15⟩,
   ⟨0.40, 0.20, 0.20, 0.15, 0.15⟩,
   ⟨0.40, 0.25, 0.10, 0.10, 0.20⟩,
   ⟨0.40, 0.25, 0.10, 0.15, 0.20⟩,
   ⟨0.40, 0.25, 0.15, 0.10, 0.15⟩,
   ⟨0.40, 0.25, 0.15, 0.15, 0.15⟩,
   ⟨0.40, 0.25, 0.20, 0.10, 0.15⟩,
   ⟨0.40, 0.25, 0.20, 0.15, 0.15⟩,
   ⟨0.40, 0.30, 0.10, 0.10, 0.20⟩,
   ⟨0.40, 0.30, 0.15, 0.10, 0.15⟩,
   ⟨0.40, 0.30, 0.20, 0.10, 0.15⟩,
   ⟨0.45, 0.20, 0.10, 0.10, 0.20⟩,
   ⟨0.45, 0.20, 0.15, 0.10, 0.15⟩,
   ⟨0.45, 0.20, 0.20, 0.10, 0.15⟩,
   ⟨0.45, 0.25, 0.10, 0.10, 0.20⟩,
   ⟨0.45, 0.25, 0.15, 0.10, 0.15⟩,
   ⟨0.45, 0.25, 0.20, 0.10, 0.15⟩]

/-- The exact per-component and sum envelope of every normalized reachable
weight vector: the extreme values over the 62 pre-normalization vectors. -/
def inEnvelope (w : Weights) : Prop :=
  0.2174 ≤ w.paymentHistory ∧ w.paymentHistory ≤ 0.4286 ∧
  0.1818 ≤ w.utilization ∧ w.utilization ≤ 0.4091 ∧
  0.0909 ≤ w.accountAge ∧ w.accountAge ≤ 0.2381 ∧
  0.087 ≤ w.creditMix ∧ w.creditMix ≤ 0.1579 ∧
  0.08 ≤ w.newCredit ∧ w.newCredit ≤ 0.1905 ∧
  0.9999 ≤ w.total ∧ w.total ≤ 1.0002

/-! ## The rest of the data model -/

/-- The scenario selector (source values `'pre-enrollment'` — the spec's
NewClient — and `'progress-tracker'` — the spec's ExistingClient). -/
inductive ScenarioType where
  | preEnrollment
  | progressTracker
deriving DecidableEq

/-- The numeric and boolean fields of the `UserData` record that the core
formula reads (src/next.config.ts:275-295).  Purely presentational fields
(`settledAccounts`, `programPhase`, `email`, `firstName`, `phone`) are never
read by the formula and are omitted.  `Option ℚ` models `number | ''`;
`programTimeline` is a plain `number` in the source. -/
structure UserData where
  ficoScore : Option ℚ
  totalDebt : Option ℚ
  monthlyIncome : Option ℚ
  utilization : Option ℚ
  accountsEnrolling : Option ℚ
  positiveAccounts : Option ℚ
  oldestAccountAge : Option ℚ
  programTimeline : ℚ
  totalCreditLimit : Option ℚ
  scenarioType : ScenarioType
  monthsInProgram : Option ℚ
  securedCard : Bool
  creditBuilder : Bool
  authorizedUser : Bool

/-- Embedding of `calculateWorstCaseImpact` (src/next.config.ts:460-472):
drop accumulation from the utilization factor, FICO severity, positive
accounts and account age, clamped to `[20, 150]` after rounding.  Note the
`Number(data.utilization) || 100` substitution for an empty or zero field. -/
def calculateWorstCaseImpact (data : UserData) (weights : Weights) : ℤ :=
  let utilization := numOr data.utilization 100
  let utilizationFactor := max 0 ((100 - utilization) / 10)
  let drop1 := utilizationFactor * 5 * (weights.utilization * 2)
  let severityFactor := max 0 ((numberOf data.ficoScore - 500) / 20)
  let drop2 := drop1 + severityFactor * 5
  let drop3 := drop2 - numOr data.positiveAccounts 0 * 10
  let drop4 := if numberOf data.oldestAccountAge > 10 then drop3 - 15 else drop3
  min 150 (max 20 (jsRound drop4))

/-- The numeric fields of the `SimulationResults` record
(src/next.config.ts:298-313, populated at 537-552).  `recoveryTime` is a
display string built from `recoveryMonths` and is omitted; `postDTI` is a
string rendered with `toFixed(1)` in the source and is modelled as the
rounded rational value. -/
structure SimulationResults where
  initialScore : ℚ
  lowPointScore : ℚ
  projectedScore : ℚ
  scoreGain : ℚ
  postDTI : ℚ
  savings : ℚ
  impactPenalty : ℤ
  recoveryMonths : ℚ
  weights : Weights
  milestoneDipScore : ℚ
  milestoneStabilizationScore : ℚ
  milestoneRecoveryScore : ℚ
  utilization : Option ℚ
deriving DecidableEq

/-- Embedding of `runSimulation` (src/next.config.ts:474-553).  The source
writes `impactPenalty`, `lowPointScore` and `recoveryMonths` inside one
scenario branch; here each is its own conditional on the same test. -/
def runSimulation (data : UserData) : SimulationResults :=
  let ficoScore := numOr data.ficoScore 0
  let totalDebt := numOr data.totalDebt 0
  let monthlyIncome := numOr data.monthlyIncome 0
  let positiveAccounts := numOr data.positiveAccounts 0
  let oldestAccountAge := numOr data.oldestAccountAge 0
  let programTimeline := if data.programTimeline = 0 then 36 else data.programTimeline
  let totalCreditLimit := numOr data.totalCreditLimit 0
  let monthsInProgram := numOr data.monthsInProgram 0
  let initialScore := if ficoScore > 300 then ficoScore else 500
  let weights := calculateWeights initialScore totalDebt monthlyIncome
    positiveAccounts oldestAccountAge totalCreditLimit
  let impactPenalty : ℤ :=
    if data.scenarioType = ScenarioType.preEnrollment then
      calculateWorstCaseImpact data weights
    else 0
  let lowPointScore : ℚ :=
    if data.scenarioType = ScenarioType.preEnrollment then
      max 300 (initialScore - (impactPenalty : ℚ))
    else initialScore
  let recoveryMonths : ℚ :=
    if data.scenarioType = ScenarioType.preEnrollment then programTimeline
    else max 12 (programTimeline - monthsInProgram)
  let historyGain := weights.paymentHistory * 150 * (recoveryMonths / 36)
  let toolGain : ℚ :=
    (if data.securedCard then 30 else 0) + (if data.creditBuilder then 25 else 0) +
      (if data.authorizedUser then 10 else 0)
  let totalPotentialGain :=
    weights.utilization * 250 + historyGain +
      weights.accountAge * 50 * (recoveryMonths / 36) + toolGain
  let projectedScore : ℚ := min 850 ((jsRound (lowPointScore + totalPotentialGain) : ℤ) : ℚ)
  let debtSavings := totalDebt * 0.55
  let postProgramDebt := totalDebt - debtSavings
  let annualPostDebtPayment := postProgramDebt * 0.05
  let monthlyPostDebtPayment := annualPostDebtPayment / 12
  let postDTI := if monthlyIncome > 0 then monthlyPostDebtPayment / monthlyIncome * 100 else 0
  let totalGain := projectedScore - lowPointScore
  let stabilizationScore := min initialScore (lowPointScore + (jsRound (totalGain * 0.15) : ℚ))
  let recoveryScore := lowPointScore + (jsRound (totalGain * 0.65) : ℚ)
  { initialScore := initialScore
    lowPointScore := lowPointScore
    projectedScore := projectedScore
    scoreGain := projectedScore - initialScore
    postDTI := roundTo1 (min 50 postDTI)
    savings := debtSavings
    impactPenalty := impactPenalty
    recoveryMonths := recoveryMonths
    weights := weights
    milestoneDipScore := lowPointScore
    milestoneStabilizationScore := stabilizationScore
    milestoneRecoveryScore := recoveryScore
    utilization := data.utilization }

/-! ## Example profiles -/

/-- A maxed-out existing-client profile: the projected score is capped at the
low point, so the milestone gain span is `0`. -/
def cappedProfile : UserData :=
  { ficoScore := some 850, totalDebt := none, monthlyIncome := none
    utilization := none, accountsEnrolling := none, positiveAccounts := none
    oldestAccountAge := none, programTimeline := 36, totalCreditLimit := none
    scenarioType := ScenarioType.progressTracker, monthsInProgram := none
    securedCard := false, creditBuilder := false, authorizedUser := false }

/-- The worked example of the spec: a new client with FICO 650. -/
def exampleProfile : UserData :=
  { ficoScore := some 650, totalDebt := some 20000, monthlyIncome := some 4000
    utilization := some 70, accountsEnrolling := some 3, positiveAccounts := some 1
    oldestAccountAge := some 5, programTimeline := 36, totalCreditLimit := some 25000
    scenarioType := ScenarioType.preEnrollment, monthsInProgram := none
    securedCard := false, creditBuilder := false, authorizedUser := false }

/-- The example profile as an existing client six months into the program. -/
def existingProfile : UserData :=
  { exampleProfile with scenarioType := ScenarioType.progressTracker
                        monthsInProgram := some 6 }

/-- The example profile with no reported income. -/
def zeroIncomeProfile : UserData :=
  { exampleProfile with monthlyIncome := none }

/-- The example profile with the utilization field left blank. -/
def blankUtilProfile : UserData :=
  { exampleProfile with utilization := none }

/-! ## Stage lemmas: pushing the finite tables through the pipeline -/

theorem ficoAdjust_mem (f : ℚ) : ficoAdjust f baseWeights ∈ weightTable1 := by
  simp only [ficoAdjust, baseWeights]
  split_ifs <;> norm_num [weightTable1]

theorem dtiAdjust_mem (dti : ℚ) (w : Weights) (hw : w ∈ weightTable1) :
    dtiAdjust dti w ∈ weightTable2 := by
  fin_cases hw <;>
    · simp only [dtiAdjust]
      split_ifs <;> norm_num [weightTable2, min_def, max_def]

theorem limitAdjust_mem (d l : ℚ) (w : Weights) (hw : w ∈ weightTable2) :
    limitAdjust d l w ∈ weightTable3 := by
  fin_cases hw <;>
    · simp only [limitAdjust]
      split_ifs <;> norm_num [weightTable3, min_def, max_def]

theorem positiveAdjust_mem (p : ℚ) (w : Weights) (hw : w ∈ weightTable3) :
    positiveAdjust p w ∈ weightTable4 := by
  fin_cases hw <;>
    · simp only [positiveAdjust]
      split_ifs <;> norm_num [weightTable4, min_def, max_def]

theorem ageAdjust_mem (a : ℚ) (w : Weights) (hw : w ∈ weightTable4) :
    ageAdjust a w ∈ weightTable5 := by
  fin_cases hw <;>
    · simp only [ageAdjust]
      split_ifs <;> norm_num [weightTable5, min_def, max_def]

theorem normalizeWeights_envelope (w : Weights) (hw : w ∈ weightTable5) :
    inEnvelope (normalizeWeights w) := by
  fin_cases hw <;>
    norm_num [normalizeWeights, inEnvelope, Weights.total, roundTo4, jsRound,
      Rat.floor_def']

/-- Every vector `calculateWeights` can produce lies in the envelope. -/
theorem calculateWeights_envelope (f d i p a l : ℚ) :
    inEnvelope (calculateWeights f d i p a l) := by
  unfold calculateWeights
  exact normalizeWeights_envelope _
    (ageAdjust_mem _ _ (positiveAdjust_mem _ _
      (limitAdjust_mem _ _ _ (dtiAdjust_mem _ _ (ficoAdjust_mem _)))))

/-! ## Small helper lemmas -/

theorem jsRound_intFloor (q : ℚ) : jsRound q = ⌊q + 1/2⌋ := by
  rw [jsRound, Rat.floor_def', ← Rat.floor_def]

theorem jsRound_le (q : ℚ) : (jsRound q : ℚ) ≤ q + 1/2 := by
  rw [jsRound_intFloor]; exact_mod_cast Int.floor_le (q + 1/2)

theorem lt_jsRound (q : ℚ) : q - 1/2 < (jsRound q : ℚ) := by
  rw [jsRound_intFloor]
  have := Int.sub_one_lt_floor (q + 1/2)
  push_cast at this ⊢
  linarith

theorem le_jsRound_of_le (q : ℚ) (z : ℤ) (h : (z : ℚ) ≤ q + 1/2) : z ≤ jsRound q := by
  rw [jsRound_intFloor]; exact Int.le_floor.mpr h

theorem numOr_some_zero (v : ℚ) : numOr (some v) 0 = v := by
  rw [numOr]; split_ifs with h
  · exact h.symm
  · rfl

theorem numOr_some_ne (v d : ℚ) (h : v ≠ 0) : numOr (some v) d = v := by
  rw [numOr, if_neg h]

theorem numberOf_some (v : ℚ) : numberOf (some v) = v := rfl

theorem calculateWorstCaseImpact_mem_Icc (data : UserData) (weights : Weights) :
    20 ≤ calculateWorstCaseImpact data weights ∧
      calculateWorstCaseImpact data weights ≤ 150 := by
  unfold calculateWorstCaseImpact
  constructor
  · exact le_min (by norm_num) (le_max_left _ _)
  · exact min_le_left _ _

/-! ## Claim theorems -/

/-- Claim C1, counterexample.  On the profile
`fico=500, debt=0, income=1000, positive=1, age=5, limit=1000` the
pre-normalization vector is `(0.40, 0.20, 0.15, 0.15, 0.15)` with sum `1.05`,
and after normalization the utilization component is `0.1905 < 0.20` — outside
its documented clamp bounds — while the five rounded components sum to
`1.0002`, which misses `1.0` by more than `1e-4`.  Both conjuncts of the claim
fail at this input. -/
theorem weights_claim_counterexample :
    (calculateWeights 500 0 1000 1 5 1000).utilization < 0.20 ∧
    1 + 1/10000 < (calculateWeights 500 0 1000 1 5 1000).total := by
  have hw : calculateWeights 500 0 1000 1 5 1000 =
      ⟨0.3810, 0.1905, 0.1429, 0.1429, 0.1429⟩ := by
    norm_num [calculateWeights, normalizeWeights, ficoAdjust, dtiAdjust, limitAdjust,
      positiveAdjust, ageAdjust, baseWeights, roundTo4, jsRound, Rat.floor_def',
      min_def, max_def, Weights.mk.injEq]
  rw [hw]
  norm_num [Weights.total]

/-- Claim C1, amended.  For every profile the weight vector of
`calculateWeights` is the step-1-through-5 adjusted vector normalized by its
pre-normalization sum and rounded to 4 decimal digits; the five components sum
to `1.0` within `±2e-4` (not always within `1e-4`), and after normalization
each component lies in its exact reachable range — `payment_history` in
`[0.2174, 0.4286]`, `utilization` in `[0.1818, 0.4091]`, `account_age` in
`[0.0909, 0.2381]`, `credit_mix` in `[0.087, 0.1579]`, `new_credit` in
`[0.08, 0.1905]` — rather than inside the pre-normalization clamp bounds. -/
theorem calculateWeights_normalized_bounds (f d i p a l : ℚ) :
    calculateWeights f d i p a l =
      normalizeWeights (ageAdjust a (positiveAdjust p (limitAdjust d l
        (dtiAdjust (if i > 0 then d / (i * 12) else 1) (ficoAdjust f baseWeights))))) ∧
    |(calculateWeights f d i p a l).total - 1| ≤ 0.0002 ∧
    inEnvelope (calculateWeights f d i p a l) := by
  have h := calculateWeights_envelope f d i p a l
  refine ⟨rfl, ?_, h⟩
  unfold inEnvelope at h
  obtain ⟨-, -, -, -, -, -, -, -, -, -, h1, h2⟩ := h
  rw [abs_le]
  constructor <;> linarith

/-- Claim C2: for every profile whose fields are present and whose
utilization bucket is non-zero, `calculateWorstCaseImpact` returns exactly
`min(150, max(20, round(d)))` with
`d = max(0,(100−utilization)/10)·5·(weights.utilization·2)
  + max(0,(fico−500)/20)·5 − positive_accounts·10 − (15 if age>10 else 0)`,
and the result is always an integer in `[20, 150]`. -/
theorem worstCaseImpact_formula (d : UserData) (w : Weights) (u f pa ag : ℚ)
    (hu : d.utilization = some u) (hu0 : u ≠ 0)
    (hf : d.ficoScore = some f) (hpa : d.positiveAccounts = some pa)
    (hag : d.oldestAccountAge = some ag) :
    calculateWorstCaseImpact d w =
      min 150 (max 20 (jsRound (max 0 ((100 - u) / 10) * 5 * (w.utilization * 2) +
        max 0 ((f - 500) / 20) * 5 - pa * 10 -
        (if ag > 10 then (15:ℚ) else 0)))) ∧
    20 ≤ calculateWorstCaseImpact d w ∧ calculateWorstCaseImpact d w ≤ 150 := by
  refine ⟨?_, calculateWorstCaseImpact_mem_Icc d w⟩
  unfold calculateWorstCaseImpact
  rw [hu, hf, hpa, hag, numOr_some_ne u 100 hu0, numOr_some_zero, numberOf_some,
    numberOf_some]
  split_ifs with h
  · ring_nf
  · ring_nf

/-- Claim C2, witness: the spec's worked example profile with base weights. -/
theorem worstCaseImpact_formula_witness :
    calculateWorstCaseImpact exampleProfile baseWeights =
      min 150 (max 20 (jsRound (max 0 ((100 - 70) / 10) * 5 * (baseWeights.utilization * 2) +
        max 0 (((650:ℚ) - 500) / 20) * 5 - 1 * 10 -
        (if (5:ℚ) > 10 then (15:ℚ) else 0)))) ∧
    20 ≤ calculateWorstCaseImpact exampleProfile baseWeights ∧
      calculateWorstCaseImpact exampleProfile baseWeights ≤ 150 :=
  worstCaseImpact_formula exampleProfile baseWeights 70 650 1 5 rfl (by norm_num)
    rfl rfl rfl

/-- Claim C3: for every profile with a FICO score in `[300, 850]` and a
non-negative program timeline, `runSimulation` keeps both `lowPointScore`
and `projectedScore` inside `[300, 850]`. -/
theorem runSimulation_score_range (d : UserData) (f : ℚ)
    (hf : d.ficoScore = some f) (h300 : 300 ≤ f) (h850 : f ≤ 850)
    (hpt : 0 ≤ d.programTimeline) :
    300 ≤ (runSimulation d).lowPointScore ∧ (runSimulation d).lowPointScore ≤ 850 ∧
    300 ≤ (runSimulation d).projectedScore ∧ (runSimulation d).projectedScore ≤ 850 := by
  have hfico : numOr d.ficoScore 0 = f := by rw [hf]; exact numOr_some_zero f
  rcases hsc : d.scenarioType with _ | _
  · have hT : (d.scenarioType = ScenarioType.preEnrollment) = True := by simp [hsc]
    simp only [runSimulation, hfico, hT, if_true]
    set I := if f > 300 then f else 500 with hI
    have hI1 : 300 ≤ I := by rw [hI]; split_ifs <;> linarith
    have hI2 : I ≤ 850 := by rw [hI]; split_ifs <;> linarith
    set W := calculateWeights I (numOr d.totalDebt 0) (numOr d.monthlyIncome 0)
      (numOr d.positiveAccounts 0) (numOr d.oldestAccountAge 0)
      (numOr d.totalCreditLimit 0) with hW
    have henv := calculateWeights_envelope I (numOr d.totalDebt 0)
      (numOr d.monthlyIncome 0) (numOr d.positiveAccounts 0)
      (numOr d.oldestAccountAge 0) (numOr d.totalCreditLimit 0)
    rw [← hW] at henv
    unfold inEnvelope at henv
    obtain ⟨hp1, hp2, hu1, hu2, ha1, ha2, hc1, hc2, hn1, hn2, hs1, hs2⟩ := henv
    set P := calculateWorstCaseImpact d W with hP
    have hP20 : 20 ≤ P := by rw [hP]; exact (calculateWorstCaseImpact_mem_Icc d W).1
    have hPq : (20:ℚ) ≤ (P : ℚ) := by exact_mod_cast hP20
    set RM := if d.programTimeline = 0 then (36:ℚ) else d.programTimeline with hRM
    have hRM0 : 0 ≤ RM := by
      rw [hRM]; split_ifs with h
      · norm_num
      · exact hpt
    set TG := ((if d.securedCard = true then (30:ℚ) else 0) +
      if d.creditBuilder = true then (25:ℚ) else 0) +
      if d.authorizedUser = true then (10:ℚ) else 0 with hTG
    have hTG0 : 0 ≤ TG := by rw [hTG]; split_ifs <;> norm_num
    have hG0 : 0 ≤ W.utilization * 250 + W.paymentHistory * 150 * (RM / 36) +
        W.accountAge * 50 * (RM / 36) + TG := by
      have t1 : (0:ℚ) ≤ W.utilization * 250 := by
        apply mul_nonneg (by linarith) (by norm_num)
      have t2 : (0:ℚ) ≤ W.paymentHistory * 150 * (RM / 36) := by
        apply mul_nonneg (mul_nonneg (by linarith) (by norm_num))
          (div_nonneg hRM0 (by norm_num))
      have t3 : (0:ℚ) ≤ W.accountAge * 50 * (RM / 36) := by
        apply mul_nonneg (mul_nonneg (by linarith) (by norm_num))
          (div_nonneg hRM0 (by norm_num))
      linarith
    refine ⟨le_max_left _ _, max_le (by norm_num) (by linarith), ?_, min_le_left _ _⟩
    refine le_min (by norm_num) ?_
    have h1 : (300:ℤ) ≤ jsRound (300 ⊔ (I - (P:ℚ)) +
        (W.utilization * 250 + W.paymentHistory * 150 * (RM / 36) +
          W.accountAge * 50 * (RM / 36) + TG)) := by
      apply le_jsRound_of_le
      push_cast
      have hlow : (300:ℚ) ≤ 300 ⊔ (I - (P:ℚ)) := le_max_left _ _
      linarith
    exact_mod_cast h1
  · have hF : (d.scenarioType = ScenarioType.preEnrollment) = False := by simp [hsc]
    simp only [runSimulation, hfico, hF, if_false]
    set I := if f > 300 then f else 500 with hI
    have hI1 : 300 ≤ I := by rw [hI]; split_ifs <;> linarith
    have hI2 : I ≤ 850 := by rw [hI]; split_ifs <;> linarith
    set W := calculateWeights I (numOr d.totalDebt 0) (numOr d.monthlyIncome 0)
      (numOr d.positiveAccounts 0) (numOr d.oldestAccountAge 0)
      (numOr d.totalCreditLimit 0) with hW
    have henv := calculateWeights_envelope I (numOr d.totalDebt 0)
      (numOr d.monthlyIncome 0) (numOr d.positiveAccounts 0)
      (numOr d.oldestAccountAge 0) (numOr d.totalCreditLimit 0)
    rw [← hW] at henv
    unfold inEnvelope at henv
    obtain ⟨hp1, hp2, hu1, hu2, ha1, ha2, hc1, hc2, hn1, hn2, hs1, hs2⟩ := henv
    set RM := (12:ℚ) ⊔ ((if d.programTimeline = 0 then (36:ℚ) else d.programTimeline) -
      numOr d.monthsInProgram 0) with hRM
    have hRM0 : 0 ≤ RM := by
      rw [hRM]
      exact le_trans (by norm_num) (le_max_left _ _)
    set TG := ((if d.securedCard = true then (30:ℚ) else 0) +
      if d.creditBuilder = true then (25:ℚ) else 0) +
      if d.authorizedUser = true then (10:ℚ) else 0 with hTG
    have hTG0 : 0 ≤ TG := by rw [hTG]; split_ifs <;> norm_num
    have hG0 : 0 ≤ W.utilization * 250 + W.paymentHistory * 150 * (RM / 36) +
        W.accountAge * 50 * (RM / 36) + TG := by
      have t1 : (0:ℚ) ≤ W.utilization * 250 := by
        apply mul_nonneg (by linarith) (by norm_num)
      have t2 : (0:ℚ) ≤ W.paymentHistory * 150 * (RM / 36) := by
        apply mul_nonneg (mul_nonneg (by linarith) (by norm_num))
          (div_nonneg hRM0 (by norm_num))
      have t3 : (0:ℚ) ≤ W.accountAge * 50 * (RM / 36) := by
        apply mul_nonneg (mul_nonneg (by linarith) (by norm_num))
          (div_nonneg hRM0 (by norm_num))
      linarith
    refine ⟨hI1, hI2, ?_, min_le_left _ _⟩
    refine le_min (by norm_num) ?_
    have h1 : (300:ℤ) ≤ jsRound (I +
        (W.utilization * 250 + W.paymentHistory * 150 * (RM / 36) +
          W.accountAge * 50 * (RM / 36) + TG)) := by
      apply le_jsRound_of_le
      push_cast
      linarith
    exact_mod_cast h1

/-- Claim C3, witness: the spec's worked example profile. -/
theorem runSimulation_score_range_witness :
    300 ≤ (runSimulation exampleProfile).lowPointScore ∧
    (runSimulation exampleProfile).lowPointScore ≤ 850 ∧
    300 ≤ (runSimulation exampleProfile).projectedScore ∧
    (runSimulation exampleProfile).projectedScore ≤ 850 :=
  runSimulation_score_range exampleProfile 650 rfl (by norm_num) (by norm_num)
    (by norm_num [exampleProfile])

/-- Claim C4: for every profile, `runSimulation` computes
`projected_score = min(850, round(low_point + total_gain))` where
`total_gain = weights.utilization·250 + weights.payment_history·150·(rm/36)
 + weights.account_age·50·(rm/36) + tool_gain`, and
`tool_gain = 30·secured_card + 25·credit_builder + 10·authorized_user`. -/
theorem runSimulation_projected_formula (d : UserData) :
    (runSimulation d).projectedScore =
      min 850 ((jsRound ((runSimulation d).lowPointScore +
        ((runSimulation d).weights.utilization * 250 +
          (runSimulation d).weights.paymentHistory * 150 *
            ((runSimulation d).recoveryMonths / 36) +
          (runSimulation d).weights.accountAge * 50 *
            ((runSimulation d).recoveryMonths / 36) +
          ((if d.securedCard then 30 else 0) + (if d.creditBuilder then 25 else 0) +
            (if d.authorizedUser then 10 else 0)))) : ℤ) : ℚ) := rfl

/-- Claim C5: for every existing-client profile with a non-zero timeline,
`runSimulation` returns `impact_penalty = 0`, `low_point_score = initial_score`
and `recovery_months = max(12, program_timeline_months − months_in_program)`. -/
theorem runSimulation_existing_client (d : UserData) (m : ℚ)
    (hs : d.scenarioType = ScenarioType.progressTracker)
    (ht : d.programTimeline ≠ 0)
    (hm : d.monthsInProgram = some m) :
    (runSimulation d).impactPenalty = 0 ∧
    (runSimulation d).lowPointScore = (runSimulation d).initialScore ∧
    (runSimulation d).recoveryMonths = max 12 (d.programTimeline - m) := by
  have hpre : ¬(d.scenarioType = ScenarioType.preEnrollment) := by
    rw [hs]; intro hcon; cases hcon
  simp only [runSimulation, hm, numOr_some_zero]
  rw [if_neg hpre, if_neg hpre, if_neg hpre, if_neg ht]
  exact ⟨rfl, rfl, rfl⟩

/-- Claim C5, witness: the example profile six months into the program. -/
theorem runSimulation_existing_client_witness :
    (runSimulation existingProfile).impactPenalty = 0 ∧
    (runSimulation existingProfile).lowPointScore =
      (runSimulation existingProfile).initialScore ∧
    (runSimulation existingProfile).recoveryMonths =
      max 12 (existingProfile.programTimeline - 6) :=
  runSimulation_existing_client existingProfile 6 rfl
    (by norm_num [existingProfile, exampleProfile]) rfl

/-- Claim C6, counterexample.  On the capped existing-client profile
(FICO 850) the gain span `projected_score − low_point` is `0`, yet the
recovery milestone is `low_point + round(0 × 0.65) = 850`, not
`low_point + round(1 × 0.65) = 851` as the claim's "gain span is 1 when the
difference is zero" rule would require: `runSimulation` never substitutes
`1` (that guard exists only in the chart-rendering component). -/
theorem milestone_gainspan_counterexample :
    (runSimulation cappedProfile).projectedScore -
      (runSimulation cappedProfile).lowPointScore = 0 ∧
    (runSimulation cappedProfile).milestoneRecoveryScore ≠
      (runSimulation cappedProfile).lowPointScore + (jsRound ((1:ℚ) * 0.65) : ℚ) := by
  have hsc : (ScenarioType.progressTracker = ScenarioType.preEnrollment) = False := by
    simp
  have hw : calculateWeights 850 0 0 0 0 0 =
      ⟨0.2273, 0.4091, 0.1364, 0.0909, 0.1364⟩ := by
    norm_num [calculateWeights, normalizeWeights, ficoAdjust, dtiAdjust, limitAdjust,
      positiveAdjust, ageAdjust, baseWeights, roundTo4, jsRound, Rat.floor_def',
      min_def, max_def, Weights.mk.injEq]
  norm_num [runSimulation, cappedProfile, numOr, numberOf, hsc, hw, roundTo1,
    jsRound, Rat.floor_def']

/-- Claim C6, amended: for every profile the milestone scores satisfy
`stabilization = min(initial, low + round(gain_span × 0.15))` and
`recovery = low + round(gain_span × 0.65)` with
`gain_span = projected_score − low_point` taken as-is — there is no
substitution of `1` when the span is zero. -/
theorem runSimulation_milestone_formula (d : UserData) :
    (runSimulation d).milestoneStabilizationScore =
      min (runSimulation d).initialScore
        ((runSimulation d).lowPointScore +
          (jsRound (((runSimulation d).projectedScore -
            (runSimulation d).lowPointScore) * 0.15) : ℚ)) ∧
    (runSimulation d).milestoneRecoveryScore =
      (runSimulation d).lowPointScore +
        (jsRound (((runSimulation d).projectedScore -
          (runSimulation d).lowPointScore) * 0.65) : ℚ) :=
  ⟨rfl, rfl⟩

/-- Claim C7: for every profile, `estimated_savings_usd = total_debt × 0.55`;
`post_program_dti_pct = min(50, ((total_debt − savings) × 0.05 / 12) /
monthly_income × 100)` rendered to one decimal place when the income is
positive, and `0` when the income is zero. -/
theorem runSimulation_debt_relief (d : UserData) :
    (runSimulation d).savings = numOr d.totalDebt 0 * 0.55 ∧
    (numOr d.monthlyIncome 0 > 0 →
      (runSimulation d).postDTI =
        roundTo1 (min 50 ((numOr d.totalDebt 0 - numOr d.totalDebt 0 * 0.55) * 0.05 / 12 /
          numOr d.monthlyIncome 0 * 100))) ∧
    (numOr d.monthlyIncome 0 = 0 → (runSimulation d).postDTI = 0) := by
  refine ⟨rfl, ?_, ?_⟩
  · intro h
    simp only [runSimulation]
    rw [if_pos h]
  · intro h
    simp only [runSimulation]
    rw [h]
    norm_num [roundTo1, jsRound, Rat.floor_def']

/-- Claim C7, witness: the example profile, and the same profile with no
income. -/
theorem runSimulation_debt_relief_witness :
    (runSimulation exampleProfile).savings = numOr exampleProfile.totalDebt 0 * 0.55 ∧
    (runSimulation exampleProfile).postDTI =
      roundTo1 (min 50 ((numOr exampleProfile.totalDebt 0 -
        numOr exampleProfile.totalDebt 0 * 0.55) * 0.05 / 12 /
        numOr exampleProfile.monthlyIncome 0 * 100)) ∧
    (runSimulation zeroIncomeProfile).postDTI = 0 :=
  ⟨(runSimulation_debt_relief exampleProfile).1,
   (runSimulation_debt_relief exampleProfile).2.1
     (by norm_num [exampleProfile, numOr]),
   (runSimulation_debt_relief zeroIncomeProfile).2.2 rfl⟩

/-- Claim C8: every zero-denominator division of the core formula is guarded:
with zero income the debt-to-income ratio is substituted by `1` (the weights
equal those computed with `dti = 1`); with zero income the reported post-DTI
is `0`; with a zero credit limit the overall-utilization adjustment step is
skipped entirely, leaving the weights unaffected by that step.  All three
embedded functions are total over `ℚ` by construction. -/
theorem zero_denominator_guards (f d i p a l : ℚ) (u : UserData) (w : Weights) :
    (i = 0 → calculateWeights f d i p a l =
      normalizeWeights (ageAdjust a (positiveAdjust p
        (limitAdjust d l (dtiAdjust 1 (ficoAdjust f baseWeights)))))) ∧
    (numOr u.monthlyIncome 0 = 0 → (runSimulation u).postDTI = 0) ∧
    (l = 0 → limitAdjust d l w = w) := by
  refine ⟨?_, ?_, ?_⟩
  · intro h
    subst h
    unfold calculateWeights
    norm_num
  · intro h
    simp only [runSimulation]
    rw [h]
    norm_num [roundTo1, jsRound, Rat.floor_def']
  · intro h
    subst h
    unfold limitAdjust
    norm_num

/-- Claim C8, witness: the example inputs with zero income and zero credit
limit. -/
theorem zero_denominator_guards_witness :
    (calculateWeights 650 20000 0 1 5 0 =
      normalizeWeights (ageAdjust 5 (positiveAdjust 1
        (limitAdjust 20000 0 (dtiAdjust 1 (ficoAdjust 650 baseWeights)))))) ∧
    (runSimulation zeroIncomeProfile).postDTI = 0 ∧
    limitAdjust 20000 0 baseWeights = baseWeights :=
  ⟨(zero_denominator_guards 650 20000 0 1 5 0 zeroIncomeProfile baseWeights).1 rfl,
   (zero_denominator_guards 650 20000 0 1 5 0 zeroIncomeProfile baseWeights).2.1 rfl,
   (zero_denominator_guards 650 20000 0 1 5 0 zeroIncomeProfile baseWeights).2.2 rfl⟩

/-- Claim C9: for every existing-client profile whose FICO score is at most
850, the score gain of `runSimulation` is non-negative: the low point equals
the initial score, the utilization gain alone is at least 45 points, and the
850 cap never falls below the initial score. -/
theorem runSimulation_existing_gain_nonneg (d : UserData)
    (hs : d.scenarioType = ScenarioType.progressTracker)
    (hf : numOr d.ficoScore 0 ≤ 850) :
    0 ≤ (runSimulation d).scoreGain := by
  have hF : (d.scenarioType = ScenarioType.preEnrollment) = False := by simp [hs]
  simp only [runSimulation, hF, if_false]
  set F := numOr d.ficoScore 0 with hFv
  set I := if F > 300 then F else 500 with hI
  have hI2 : I ≤ 850 := by rw [hI]; split_ifs <;> linarith
  set W := calculateWeights I (numOr d.totalDebt 0) (numOr d.monthlyIncome 0)
    (numOr d.positiveAccounts 0) (numOr d.oldestAccountAge 0)
    (numOr d.totalCreditLimit 0) with hW
  have henv := calculateWeights_envelope I (numOr d.totalDebt 0)
    (numOr d.monthlyIncome 0) (numOr d.positiveAccounts 0)
    (numOr d.oldestAccountAge 0) (numOr d.totalCreditLimit 0)
  rw [← hW] at henv
  unfold inEnvelope at henv
  obtain ⟨hp1, hp2, hu1, hu2, ha1, ha2, hc1, hc2, hn1, hn2, hs1, hs2⟩ := henv
  set RM := (12:ℚ) ⊔ ((if d.programTimeline = 0 then (36:ℚ) else d.programTimeline) -
    numOr d.monthsInProgram 0) with hRM
  have hRM0 : 0 ≤ RM := by
    rw [hRM]
    exact le_trans (by norm_num) (le_max_left _ _)
  set TG := ((if d.securedCard = true then (30:ℚ) else 0) +
    if d.creditBuilder = true then (25:ℚ) else 0) +
    if d.authorizedUser = true then (10:ℚ) else 0 with hTG
  have hTG0 : 0 ≤ TG := by rw [hTG]; split_ifs <;> norm_num
  have hG45 : 45 ≤ W.utilization * 250 + W.paymentHistory * 150 * (RM / 36) +
      W.accountAge * 50 * (RM / 36) + TG := by
    have t1 : (45:ℚ) ≤ W.utilization * 250 := by nlinarith
    have t2 : (0:ℚ) ≤ W.paymentHistory * 150 * (RM / 36) := by
      apply mul_nonneg (mul_nonneg (by linarith) (by norm_num))
        (div_nonneg hRM0 (by norm_num))
    have t3 : (0:ℚ) ≤ W.accountAge * 50 * (RM / 36) := by
      apply mul_nonneg (mul_nonneg (by linarith) (by norm_num))
        (div_nonneg hRM0 (by norm_num))
    linarith
  rw [sub_nonneg]
  refine le_min hI2 ?_
  have h1 := lt_jsRound (I + (W.utilization * 250 + W.paymentHistory * 150 * (RM / 36) +
    W.accountAge * 50 * (RM / 36) + TG))
  linarith

/-- Claim C9, witness: the example profile as an existing client. -/
theorem existing_gain_nonneg_witness :
    0 ≤ (runSimulation existingProfile).scoreGain :=
  runSimulation_existing_gain_nonneg existingProfile rfl
    (by norm_num [existingProfile, exampleProfile, numOr])

/-- Claim C10: when the utilization field is empty or `0`,
`calculateWorstCaseImpact` substitutes `100`, so the utilization-factor term
contributes exactly `0` to the drop. -/
theorem worstCaseImpact_zero_utilization (d : UserData) (w : Weights)
    (hu : d.utilization = none ∨ d.utilization = some 0) :
    calculateWorstCaseImpact d w =
      min 150 (max 20 (jsRound (max 0 ((numberOf d.ficoScore - 500) / 20) * 5 -
        numOr d.positiveAccounts 0 * 10 -
        (if numberOf d.oldestAccountAge > 10 then (15:ℚ) else 0)))) := by
  have h100 : numOr d.utilization 100 = 100 := by
    rcases hu with h | h <;> simp [h, numOr]
  unfold calculateWorstCaseImpact
  rw [h100]
  norm_num
  split_ifs with h
  · ring_nf
  · ring_nf

/-- Claim C10, witness: the example profile with the utilization field left
blank. -/
theorem worstCaseImpact_zero_utilization_witness :
    calculateWorstCaseImpact blankUtilProfile baseWeights =
      min 150 (max 20 (jsRound (max 0 ((numberOf blankUtilProfile.ficoScore - 500) / 20) * 5 -
        numOr blankUtilProfile.positiveAccounts 0 * 10 -
        (if numberOf blankUtilProfile.oldestAccountAge > 10 then (15:ℚ) else 0)))) :=
  worstCaseImpact_zero_utilization blankUtilProfile baseWeights (Or.inl rfl)

end CreditSim
